import Mathlib

/-!
Shallow embedding of the Anti-Gravity data-quality audit engine.

Sources embedded:
  * `modules/data_audit.py`  — `run_audit` (four-dimension audit over a table)
  * `src/quality_audit.py`   — `DataQualityAudit.check_consistency` (cross-field rule)
  * `modules/cleaning.py`    — `DataCleaner.impute_column`
  * `src/cleaning_engine.py` — `CleaningEngine` (copy-on-construction, mutating ops)

Modelling conventions:
  * A cell is missing (`null`, pandas NaN/NaT), a rational number, a string, or a
    timestamp.  Timestamps are modelled as a pair (year, rest-of-instant) ordered
    lexicographically; `.dt.year` is the first component.  Temporal columns are
    assumed to hold temporal cells (the loader parses them), per the spec's
    "one declared type per column" data model.
  * pandas comparisons against NaN/NaT are false; this is reproduced by the
    cell predicates returning `false` on `null` and on type mismatches.
  * Machine floats are modelled by ℚ; the audit only adds, divides and compares.
  * String formatting (f-strings, `%` rendering, `:.2f`) is presentational; a
    message/finding is modelled as a constructor carrying the exact values that
    the Python f-string interpolates.
  * Fallible calls (KeyError on a missing column, TypeError of a numeric
    aggregate over non-numeric data) return `Option`, `none` meaning "raises".
-/

namespace AntiGravity

/-- A single cell of the table: missing, numeric, string, or temporal.
`time y r` is an instant in year `y`; `r` orders instants within a year. -/
inductive Cell where
  | null
  | num (q : ℚ)
  | str (s : String)
  | time (year : ℤ) (rest : ℤ)
deriving DecidableEq, Repr

def Cell.isNull : Cell → Bool
  | .null => true
  | _ => false

/-- `c > now` for a timestamp cell (pandas `pd.to_datetime(col) > now`);
false on missing / non-temporal cells, as pandas comparisons with NaT are. -/
def Cell.afterTime (c : Cell) (y r : ℤ) : Bool :=
  match c with
  | .time y2 r2 => decide (y < y2) || (decide (y = y2) && decide (r < r2))
  | _ => false

/-- `c > b` for a numeric cell (pandas `col > b`); false on missing cells. -/
def Cell.gtQ (c : Cell) (b : ℚ) : Bool :=
  match c with
  | .num q => decide (b < q)
  | _ => false

/-- `c < b` for a numeric cell (pandas `col < b`); false on missing cells. -/
def Cell.ltQ (c : Cell) (b : ℚ) : Bool :=
  match c with
  | .num q => decide (q < b)
  | _ => false

/-- A dataframe: ordered, named columns of cells (column-major, like pandas). -/
structure Table where
  cols : List (String × List Cell)
deriving DecidableEq, Repr

/-- `len(df)`: the row count (length of the index, i.e. of the columns). -/
def Table.nrows (t : Table) : ℕ :=
  match t.cols with
  | [] => 0
  | c :: _ => c.2.length

/-- Well-formedness: every column has the common length (pandas guarantees it). -/
def Table.WF (t : Table) : Prop := ∀ c ∈ t.cols, c.2.length = t.nrows

instance (t : Table) : Decidable t.WF :=
  decidable_of_iff (∀ c ∈ t.cols, c.2.length = t.nrows) Iff.rfl

/-- `df.empty`: true when the table has no rows or no columns. -/
def Table.isEmptyT (t : Table) : Bool := t.nrows == 0 || t.cols.isEmpty

/-- `df[name]` as a lookup: the first column called `name`, if present
(`name in df.columns` is `(t.col? name).isSome`). -/
def Table.col? (t : Table) (name : String) : Option (List Cell) :=
  (t.cols.find? (fun c => c.1 == name)).map (fun c => c.2)

/-- `df[col] = vs`: replace the named column's values. -/
def Table.setCol (t : Table) (name : String) (vs : List Cell) : Table :=
  ⟨t.cols.map (fun c => if c.1 = name then (c.1, vs) else c)⟩

/-- Keep only the rows whose index satisfies `keep` (boolean-mask filtering). -/
def Table.filterRows (t : Table) (keep : ℕ → Bool) : Table :=
  ⟨t.cols.map (fun c => (c.1, (c.2.enum.filter (fun p => keep p.1)).map (fun p => p.2)))⟩

/-- `col.isnull().sum()`. -/
def missingCount (vs : List Cell) : ℕ := vs.countP Cell.isNull

/-- `(missing_count / total_rows) * 100` (data_audit.py line 39). -/
def missingPct (n : ℕ) (vs : List Cell) : ℚ := (missingCount vs : ℚ) / (n : ℚ) * 100

/-- `col.nunique()`: distinct non-missing values. -/
def nunique (vs : List Cell) : ℕ := ((vs.filter (fun c => !c.isNull)).dedup).length

/-- The numeric values of a column, missing entries skipped (as pandas
numeric aggregates skip NaN). -/
def colNums (vs : List Cell) : List ℚ :=
  vs.filterMap (fun c => match c with | .num q => some q | _ => none)

/-- `col.mean()`: NaN (`none`) when there is no non-missing value. -/
def colMean (vs : List Cell) : Option ℚ :=
  let ns := colNums vs
  if ns.isEmpty then none else some (ns.sum / (ns.length : ℚ))

/-- `col.max()` over a temporal column: latest timestamp, skipping missing
(`none` when the column holds no timestamp at all; Python would instead raise
on `strftime` over NaT there — no audited property touches that corner). -/
def latestTime (vs : List Cell) : Option (ℤ × ℤ) :=
  vs.foldl (fun acc c =>
    match c with
    | .time y r =>
        match acc with
        | none => some (y, r)
        | some m =>
            if decide (m.1 < y) || (decide (m.1 = y) && decide (m.2 < r)) then some (y, r)
            else some m
    | _ => acc) none

/-- Rows of `ks` that duplicate an earlier row's value
(`df.duplicated(subset=[pk])`, keep='first'; pandas treats two NaN keys as
duplicates of each other, as does `Cell` equality). -/
def dupFlagsAux : List Cell → List Cell → List Bool
  | _, [] => []
  | seen, x :: xs => seen.contains x :: dupFlagsAux (x :: seen) xs

/-- `df.duplicated(subset=[pk]).sum()`. -/
def dupCount (ks : List Cell) : ℕ := (dupFlagsAux [] ks).count true

/-! ## `run_audit` (modules/data_audit.py) -/

/-- The column status assigned by the audit loop. -/
inductive Status where
  | Valid
  | Warning
  | Critical
deriving DecidableEq, Repr

/-- One entry of `results['column_stats']` (data_audit.py lines 51-57).
`missing_pct` and `unique_vals` are the exact values; rendering (`:.2f`,
thousands separators) and the `str(dtype)` label are presentational. -/
structure ColStat where
  name : String
  missing_pct : ℚ
  unique_vals : ℕ
  status : Status
deriving DecidableEq, Repr

/-- One entry of `results['summary']`: each constructor carries the values the
corresponding Python f-string interpolates (data_audit.py lines 47, 68, 78,
85, 92; the percentage in `keyFieldMissing` is rendered `:.2f`). -/
inductive Finding where
  | keyFieldMissing (col : String) (pct : ℚ)
  | duplicateIds (count : ℕ)
  | futureCrashes (count : ℕ)
  | invalidYears (count : ℕ) (bound : ℤ)
  | negSpeeds (count : ℕ)
deriving DecidableEq, Repr

/-- The audit result dict.  `Option` fields model dict keys that the empty-table
early return leaves unset: `none` for a score means the key is absent from
`results['scores']`, `latest_date = none` renders as the fixed `'N/A'`, and
`health_score = none` means the `'health_score'` key is absent. -/
structure AuditReport where
  column_stats : List ColStat
  consistency : Option ℚ
  accuracy : Option ℚ
  completeness : Option ℚ
  summary : List Finding
  latest_date : Option (ℤ × ℤ)
  health_score : Option ℚ
deriving DecidableEq, Repr

/-- `key_fields` (data_audit.py line 28). -/
def key_fields : List String :=
  ["Report Number", "Local Case Number", "Agency Name", "Crash Date/Time"]

/-- The status logic of the audit loop (data_audit.py lines 44-49). -/
def auditStatus (n : ℕ) (name : String) (vs : List Cell) : Status :=
  if name ∈ key_fields ∧ 1 < missingPct n vs then .Critical
  else if 10 < missingPct n vs then .Warning
  else .Valid

/-- `results['column_stats']` built by the audit loop. -/
def colStats (n : ℕ) (cols : List (String × List Cell)) : List ColStat :=
  cols.map (fun c => ⟨c.1, missingPct n c.2, nunique c.2, auditStatus n c.1 c.2⟩)

/-- The summary lines appended inside the audit loop (line 47): one per
Critical key-field column, in column order. -/
def keyFindings (n : ℕ) (cols : List (String × List Cell)) : List Finding :=
  cols.filterMap (fun c =>
    if c.1 ∈ key_fields ∧ 1 < missingPct n c.2 then
      some (.keyFieldMissing c.1 (missingPct n c.2))
    else none)

/-- `results['scores']['completeness']` (line 96): mean over columns of
`100 - missing_pct`. -/
def completenessScore (n : ℕ) (cols : List (String × List Cell)) : ℚ :=
  (cols.map (fun c => 100 - missingPct n c.2)).sum / (cols.length : ℚ)

/-- `results['scores']['consistency']` (lines 60-70): `100 - duplicate_rate`
on the primary key, or a vacuous 100 when the key column is absent. -/
def consistencyScore (t : Table) : ℚ :=
  match t.col? "Report Number" with
  | some ks => 100 - (dupCount ks : ℚ) / (t.nrows : ℚ) * 100
  | none => 100

/-- The duplicate-ID summary line (lines 67-68), emitted when the count is
positive and the primary-key column exists. -/
def dupFindings (t : Table) : List Finding :=
  match t.col? "Report Number" with
  | some ks => if 0 < dupCount ks then [.duplicateIds (dupCount ks)] else []
  | none => []

/-- `future_dates` (line 75): timestamps strictly after `now`; 0 when the
column is absent (the check is skipped). -/
def futureCount (now : ℤ × ℤ) (t : Table) : ℕ :=
  match t.col? "Crash Date/Time" with
  | some vs => vs.countP (fun c => c.afterTime now.1 now.2)
  | none => 0

/-- `invalid_years` (line 82): `Vehicle Year > current_year + 1`; 0 when the
column is absent. -/
def invalidYearCount (currentYear : ℤ) (t : Table) : ℕ :=
  match t.col? "Vehicle Year" with
  | some vs => vs.countP (fun c => c.gtQ ((currentYear : ℚ) + 1))
  | none => 0

/-- `neg_speeds` (line 89): `Speed Limit < 0`; 0 when the column is absent. -/
def negSpeedCount (t : Table) : ℕ :=
  match t.col? "Speed Limit" with
  | some vs => vs.countP (fun c => c.ltQ 0)
  | none => 0

/-- `accuracy_issues_count` (lines 77, 84, 91): the three wired checks summed. -/
def accuracyIssues (now : ℤ × ℤ) (t : Table) : ℕ :=
  futureCount now t + invalidYearCount now.1 t + negSpeedCount t

/-- The accuracy summary lines (lines 78, 85, 92), one per triggered check,
in check order. -/
def accuracyFindings (now : ℤ × ℤ) (t : Table) : List Finding :=
  (if 0 < futureCount now t then [Finding.futureCrashes (futureCount now t)] else []) ++
  (if 0 < invalidYearCount now.1 t then
     [Finding.invalidYears (invalidYearCount now.1 t) (now.1 + 1)] else []) ++
  (if 0 < negSpeedCount t then [Finding.negSpeeds (negSpeedCount t)] else [])

/-- `results['scores']['accuracy']` (lines 94-95):
`max(0, (1 - issues/(N*3)) * 100)`. -/
def accuracyScore (now : ℤ × ℤ) (t : Table) : ℚ :=
  max 0 ((1 - (accuracyIssues now t : ℚ) / ((t.nrows : ℚ) * 3)) * 100)

/-- `run_audit(df)` (data_audit.py lines 6-103).  `now` is the wall clock read
at audit time (lines 34-35 read it twice within microseconds; one instant is
passed, with `current_year = now.1`).  The empty-table branch (lines 19-20)
returns the initial dict: no scores, no health_score, `'N/A'` latest date. -/
def run_audit (now : ℤ × ℤ) (t : Table) : AuditReport :=
  if t.isEmptyT then
    { column_stats := [], consistency := none, accuracy := none, completeness := none,
      summary := [], latest_date := none, health_score := none }
  else
    let comp := completenessScore t.nrows t.cols
    let cons := consistencyScore t
    let acc := accuracyScore now t
    { column_stats := colStats t.nrows t.cols
      consistency := some cons
      accuracy := some acc
      completeness := some comp
      summary := keyFindings t.nrows t.cols ++ dupFindings t ++ accuracyFindings now t
      latest_date :=
        match t.col? "Crash Date/Time" with
        | some vs => latestTime vs
        | none => none
      health_score := some ((comp + cons + acc) / 3) }

/-! ## `DataQualityAudit.check_consistency` (src/quality_audit.py lines 60-77) -/

/-- An issue string of the legacy audit module; the constructor carries the
row count the f-string interpolates. -/
inductive QAIssue where
  | yearAheadOfCrash (count : ℕ)
deriving DecidableEq, Repr

/-- The dict returned by a legacy check: `'Pass'` iff no issues, else
`'Warning'`, plus the issue list. -/
structure QAResult where
  pass : Bool
  issues : List QAIssue
deriving DecidableEq, Repr

/-- Rows where `Vehicle Year > Crash Year + 1` (quality_audit.py line 70);
pairs with a missing or non-temporal crash cell, or a missing vehicle year,
compare false (NaN semantics). -/
def yearAheadCount (t : Table) : ℕ :=
  match t.col? "Crash Date/Time", t.col? "Vehicle Year" with
  | some ts, some vy =>
      (ts.zip vy).countP (fun p =>
        match p.1, p.2 with
        | .time y _, .num q => decide ((y : ℚ) + 1 < q)
        | _, _ => false)
  | _, _ => 0

/-- `check_consistency` (quality_audit.py lines 60-77): when both columns
exist, one issue is collected iff some row has `Vehicle Year > Crash Year + 1`;
status is `'Pass'` iff the issue list is empty.  No score is computed. -/
def check_consistency (t : Table) : QAResult :=
  let issues :=
    match t.col? "Crash Date/Time", t.col? "Vehicle Year" with
    | some _, some _ =>
        if 0 < yearAheadCount t then [QAIssue.yearAheadOfCrash (yearAheadCount t)] else []
    | _, _ => []
  { pass := issues.isEmpty, issues := issues }

/-! ## `DataCleaner.impute_column` (modules/cleaning.py lines 22-46) -/

/-- The message returned by `impute_column`: `empty` is `""` (the unknown-
strategy fall-through); the other constructors carry the values interpolated
by the f-strings of lines 33, 37, 41, 44.  A `none` value is float NaN
(rendered `nan` by `:.2f`); `imputedMode`'s `none` is the `"N/A"` sentinel. -/
inductive CleanMsg where
  | empty
  | imputedMean (col : String) (val : Option ℚ)
  | imputedMedian (col : String) (val : Option ℚ)
  | imputedMode (col : String) (val : Option Cell)
  | droppedRows (count : ℕ) (col : String)
deriving DecidableEq, Repr

/-- Whether every cell is numeric or missing (a numeric-dtype column; pandas
raises TypeError when `mean`/`median` is taken over other data). -/
def numericCol (vs : List Cell) : Bool :=
  vs.all (fun c => match c with | .null => true | .num _ => true | _ => false)

/-- `col.fillna(v)`. -/
def fillNulls (vs : List Cell) (v : Cell) : List Cell :=
  vs.map (fun c => if c = .null then v else c)

/-- `col.median()`: middle of the sorted non-missing values (mean of the two
middles for even counts); NaN (`none`) when there is no non-missing value. -/
def colMedian (vs : List Cell) : Option ℚ :=
  let ns := (colNums vs).insertionSort (· ≤ ·)
  if ns.length = 0 then none
  else if ns.length % 2 = 1 then some (ns.getD (ns.length / 2) 0)
  else some ((ns.getD (ns.length / 2 - 1) 0 + ns.getD (ns.length / 2) 0) / 2)

/-- `col.mode()[0]` when the column has a non-missing value, else `none`
(the `"N/A"` branch of line 39): a non-missing value of maximal multiplicity.
(pandas breaks ties by value order; ties are broken here by first occurrence —
no claim depends on the tie.) -/
def colMode (vs : List Cell) : Option Cell :=
  let nn := vs.filter (fun c => !c.isNull)
  nn.dedup.foldl (fun acc x =>
    match acc with
    | none => some x
    | some m => if nn.count m < nn.count x then some x else acc) none

/-- `df.dropna(subset=[col])`: drop the rows whose `col` cell is missing. -/
def dropnaRows (t : Table) (col : String) : Table :=
  match t.col? col with
  | some vs => t.filterRows (fun i => !(vs.getD i .null).isNull)
  | none => t

/-- `DataCleaner.impute_column(df, col, strategy)` (cleaning.py lines 22-46).
`none` models a raise: KeyError when `col` is not a column of `df` (line 28
evaluates `df[col]`), TypeError when Mean/Median aggregates a non-numeric
column.  With a NaN aggregate (all-missing column) `fillna` is a no-op, and
the unknown-strategy fall-through returns the table unchanged with `msg = ""`. -/
def impute_column (t : Table) (col : String) (strategy : String) :
    Option (Table × CleanMsg) :=
  match t.col? col with
  | none => none
  | some vs =>
    if strategy = "Mean" then
      if numericCol vs then
        let val := colMean vs
        let vs2 := match val with | some v => fillNulls vs (.num v) | none => vs
        some (t.setCol col vs2, .imputedMean col val)
      else none
    else if strategy = "Median" then
      if numericCol vs then
        let val := colMedian vs
        let vs2 := match val with | some v => fillNulls vs (.num v) | none => vs
        some (t.setCol col vs2, .imputedMedian col val)
      else none
    else if strategy = "Mode" then
      let val := colMode vs
      let vs2 := match val with | some v => fillNulls vs v | none => fillNulls vs (.str "N/A")
      some (t.setCol col vs2, .imputedMode col val)
    else if strategy = "Drop" then
      some (dropnaRows t col, .droppedRows (missingCount vs) col)
    else
      some (t, .empty)

/-! ## `CleaningEngine` (src/cleaning_engine.py)

Python object aliasing is made explicit with a store of tables addressed by
references: `df.copy()` allocates a fresh reference, an `inplace=True`
operation writes through the engine's reference, and `self.df = ...`
rebinds the engine's reference to a freshly allocated result. -/

/-- The heap of dataframe objects; a reference is an index into it. -/
structure Store where
  tables : List Table
deriving DecidableEq, Repr

def Store.get (s : Store) (r : ℕ) : Table := s.tables.getD r ⟨[]⟩

def Store.set (s : Store) (r : ℕ) (t : Table) : Store := ⟨s.tables.set r t⟩

/-- Allocate a fresh object, returning its reference. -/
def Store.alloc (s : Store) (t : Table) : Store × ℕ :=
  (⟨s.tables ++ [t]⟩, s.tables.length)

/-- One history entry (`log_step`, cleaning_engine.py lines 15-21), carrying
the operation and the interpolated impact counts; the wall-clock timestamp
string is presentational. -/
inductive LogEntry where
  | dropNulls (columns : List String) (removed : ℕ)
  | fillNulls (column : String) (value : Cell) (filled : ℕ)
  | filterByYear (column : String) (minYear : ℚ) (removed : ℕ)
deriving DecidableEq, Repr

/-- The engine's own state: a reference to its working dataframe plus the
append-only history. -/
structure CleaningEngine where
  dfRef : ℕ
  history : List LogEntry
deriving DecidableEq, Repr

/-- `CleaningEngine(df)` (lines 11-13): `self.df = df.copy()` — a fresh copy
of the caller's object is allocated; the history starts empty. -/
def CleaningEngine.init (s : Store) (df : ℕ) : Store × CleaningEngine :=
  let p := s.alloc (s.get df)
  (p.1, ⟨p.2, []⟩)

/-- `df.dropna(subset=columns)` on the table value (missing subset columns,
which pandas rejects with KeyError, pass every row here; no claim uses them). -/
def dropNullsT (columns : List String) (t : Table) : Table :=
  t.filterRows (fun i => columns.all (fun c =>
    match t.col? c with
    | some vs => !(vs.getD i .null).isNull
    | none => true))

/-- `df[column].fillna(value)` on the table value. -/
def fillNullsT (column : String) (v : Cell) (t : Table) : Table :=
  match t.col? column with
  | some vs => t.setCol column (fillNulls vs v)
  | none => t

/-- `df[df[column] >= min_year]` on the table value (rows whose cell is
missing or non-numeric compare false and are dropped, as in pandas). -/
def filterByYearT (column : String) (minYear : ℚ) (t : Table) : Table :=
  t.filterRows (fun i =>
    match t.col? column with
    | some vs =>
        match vs.getD i .null with
        | .num q => decide (minYear ≤ q)
        | _ => false
    | none => false)

/-- The three cleaning operations a caller can invoke. -/
inductive COp where
  | dropNulls (columns : List String)
  | fillNulls (column : String) (value : Cell)
  | filterByYear (column : String) (minYear : ℚ)
deriving DecidableEq, Repr

/-- One engine method call (cleaning_engine.py lines 23-44).  `drop_nulls` and
`fill_nulls` mutate the engine's object in place (`inplace=True`);
`filter_by_year` rebinds `self.df` to a new object.  Each appends one log
entry with its measured impact. -/
def CleaningEngine.step (s : Store) (e : CleaningEngine) : COp → Store × CleaningEngine
  | .dropNulls columns =>
      let t := s.get e.dfRef
      let t2 := dropNullsT columns t
      (s.set e.dfRef t2,
       { e with history := e.history ++ [.dropNulls columns (t.nrows - t2.nrows)] })
  | .fillNulls column v =>
      let t := s.get e.dfRef
      let cnt := ((t.col? column).map missingCount).getD 0
      (s.set e.dfRef (fillNullsT column v t),
       { e with history := e.history ++ [.fillNulls column v cnt] })
  | .filterByYear column y =>
      let t := s.get e.dfRef
      let t2 := filterByYearT column y t
      let p := s.alloc t2
      (p.1, { dfRef := p.2,
              history := e.history ++ [.filterByYear column y (t.nrows - t2.nrows)] })

/-- Run a sequence of engine calls. -/
def CleaningEngine.runOps (s : Store) (e : CleaningEngine) : List COp → Store × CleaningEngine
  | [] => (s, e)
  | op :: ops =>
      let p := CleaningEngine.step s e op
      CleaningEngine.runOps p.1 p.2 ops

/-- The duplicate count the consistency check uses: 0 when the primary-key
column is absent (the check is skipped), else the duplicated-row count. -/
def dupCountT (t : Table) : ℕ := ((t.col? "Report Number").map dupCount).getD 0

/-! ## Helper lemmas -/

lemma mem_keyFindings {n : ℕ} {cols : List (String × List Cell)} {f : Finding}
    (hf : f ∈ keyFindings n cols) : ∃ c p, f = Finding.keyFieldMissing c p := by
  unfold keyFindings at hf
  obtain ⟨c, _, hc⟩ := List.mem_filterMap.mp hf
  split at hc
  · exact ⟨c.1, missingPct n c.2, (Option.some.inj hc).symm⟩
  · cases hc

lemma mem_dupFindings {t : Table} {f : Finding} (hf : f ∈ dupFindings t) :
    ∃ k, f = Finding.duplicateIds k := by
  unfold dupFindings at hf
  split at hf
  · split at hf
    · simp at hf
      exact ⟨_, hf⟩
    · cases hf
  · cases hf

lemma mem_accuracyFindings {now : ℤ × ℤ} {t : Table} {f : Finding}
    (hf : f ∈ accuracyFindings now t) :
    (∃ k, f = Finding.futureCrashes k) ∨ (∃ k b, f = Finding.invalidYears k b) ∨
      (∃ k, f = Finding.negSpeeds k) := by
  unfold accuracyFindings at hf
  rcases List.mem_append.mp hf with hf1 | hf1
  · rcases List.mem_append.mp hf1 with hf2 | hf2
    · left
      split at hf2 <;> simp at hf2
      exact ⟨_, hf2⟩
    · right; left
      split at hf2 <;> simp at hf2
      exact ⟨_, _, hf2⟩
  · right; right
    split at hf1 <;> simp at hf1
    exact ⟨_, hf1⟩

lemma isEmptyT_false_iff {t : Table} :
    t.isEmptyT = false ↔ 0 < t.nrows ∧ t.cols ≠ [] := by
  unfold Table.isEmptyT
  cases t.cols with
  | nil => simp [Table.nrows]
  | cons c cs => simp [Table.nrows, Nat.pos_iff_ne_zero]

lemma nrows_zero_of_cols_nil {t : Table} (h : t.cols = []) : t.nrows = 0 := by
  unfold Table.nrows
  rw [h]

lemma cols_ne_nil_of_col? {t : Table} {name : String} {vs : List Cell}
    (h : t.col? name = some vs) : t.cols ≠ [] := by
  intro hnil
  rw [Table.col?, hnil] at h
  simp at h

/-- Recognizer for duplicate-ID summary lines. -/
def Finding.isDuplicateIds : Finding → Bool
  | .duplicateIds _ => true
  | _ => false

/-- Recognizer for key-field-missing summary lines. -/
def Finding.isKeyFieldMissing : Finding → Bool
  | .keyFieldMissing _ _ => true
  | _ => false

/-- Recognizer for future-crash summary lines. -/
def Finding.isFutureCrashes : Finding → Bool
  | .futureCrashes _ => true
  | _ => false

/-- Recognizer for invalid-vehicle-year summary lines. -/
def Finding.isInvalidYears : Finding → Bool
  | .invalidYears _ _ => true
  | _ => false

/-- Recognizer for negative-speed summary lines. -/
def Finding.isNegSpeeds : Finding → Bool
  | .negSpeeds _ => true
  | _ => false

lemma count_keyFindings_eq_zero {n : ℕ} {cols : List (String × List Cell)} {f : Finding}
    (hf : ∀ c p, f ≠ Finding.keyFieldMissing c p) : (keyFindings n cols).count f = 0 := by
  rw [List.count_eq_zero]
  intro hm
  obtain ⟨c, p, hfe⟩ := mem_keyFindings hm
  exact hf c p hfe

lemma count_dupFindings_eq_zero {t : Table} {f : Finding}
    (hf : ∀ k, f ≠ Finding.duplicateIds k) : (dupFindings t).count f = 0 := by
  rw [List.count_eq_zero]
  intro hm
  obtain ⟨k, hfe⟩ := mem_dupFindings hm
  exact hf k hfe

lemma count_accuracyFindings_eq_zero {now : ℤ × ℤ} {t : Table} {f : Finding}
    (h1 : ∀ k, f ≠ Finding.futureCrashes k) (h2 : ∀ k b, f ≠ Finding.invalidYears k b)
    (h3 : ∀ k, f ≠ Finding.negSpeeds k) : (accuracyFindings now t).count f = 0 := by
  rw [List.count_eq_zero]
  intro hm
  rcases mem_accuracyFindings hm with ⟨k, hk⟩ | ⟨k, b, hk⟩ | ⟨k, hk⟩
  exacts [h1 k hk, h2 k b hk, h3 k hk]

lemma countP_keyFindings_eq_zero {n : ℕ} {cols : List (String × List Cell)} {p : Finding → Bool}
    (hp : ∀ c q, p (Finding.keyFieldMissing c q) = false) : (keyFindings n cols).countP p = 0 := by
  rw [List.countP_eq_zero]
  intro f hm
  obtain ⟨c, q, hfe⟩ := mem_keyFindings hm
  subst hfe
  simp [hp]

lemma countP_dupFindings_eq_zero {t : Table} {p : Finding → Bool}
    (hp : ∀ k, p (Finding.duplicateIds k) = false) : (dupFindings t).countP p = 0 := by
  rw [List.countP_eq_zero]
  intro f hm
  obtain ⟨k, hfe⟩ := mem_dupFindings hm
  subst hfe
  simp [hp]

lemma countP_accuracyFindings_eq_zero {now : ℤ × ℤ} {t : Table} {p : Finding → Bool}
    (h1 : ∀ k, p (Finding.futureCrashes k) = false)
    (h2 : ∀ k b, p (Finding.invalidYears k b) = false)
    (h3 : ∀ k, p (Finding.negSpeeds k) = false) : (accuracyFindings now t).countP p = 0 := by
  rw [List.countP_eq_zero]
  intro f hm
  rcases mem_accuracyFindings hm with ⟨k, hk⟩ | ⟨k, b, hk⟩ | ⟨k, hk⟩ <;> subst hk <;>
    simp [h1, h2, h3]

lemma summary_decomp {now : ℤ × ℤ} {t : Table} (h : t.isEmptyT = false) :
    (run_audit now t).summary =
      keyFindings t.nrows t.cols ++ dupFindings t ++ accuracyFindings now t := by
  simp [run_audit, h]

/-! ## Claims -/

/-- C1: for every non-empty table, the audit's health_score is present and
equals the arithmetic mean of the completeness, consistency and accuracy
dimension scores; being a function of exactly those three report fields,
the timeliness result (`latest_date`) does not enter it. -/
theorem health_score_is_mean_of_three (now : ℤ × ℤ) (t : Table)
    (h : t.isEmptyT = false) :
    ((run_audit now t).completeness).isSome = true ∧
    ((run_audit now t).consistency).isSome = true ∧
    ((run_audit now t).accuracy).isSome = true ∧
    (run_audit now t).health_score =
      some ((((run_audit now t).completeness).getD 0 +
             ((run_audit now t).consistency).getD 0 +
             ((run_audit now t).accuracy).getD 0) / 3) := by
  simp [run_audit, h]

theorem health_score_is_mean_of_three_witness :
    ((run_audit (2026, 0) ⟨[("Speed Limit", [Cell.num 30])]⟩).completeness).isSome = true ∧
    ((run_audit (2026, 0) ⟨[("Speed Limit", [Cell.num 30])]⟩).consistency).isSome = true ∧
    ((run_audit (2026, 0) ⟨[("Speed Limit", [Cell.num 30])]⟩).accuracy).isSome = true ∧
    (run_audit (2026, 0) ⟨[("Speed Limit", [Cell.num 30])]⟩).health_score =
      some ((((run_audit (2026, 0) ⟨[("Speed Limit", [Cell.num 30])]⟩).completeness).getD 0 +
             ((run_audit (2026, 0) ⟨[("Speed Limit", [Cell.num 30])]⟩).consistency).getD 0 +
             ((run_audit (2026, 0) ⟨[("Speed Limit", [Cell.num 30])]⟩).accuracy).getD 0) / 3) :=
  health_score_is_mean_of_three (2026, 0) ⟨[("Speed Limit", [Cell.num 30])]⟩ (by decide)

/-- C2 counterexample: for the empty table (one column, zero rows) the audit's
early return leaves the health_score key unset (`none`), so the report does
not carry a health_score as the claim states. -/
theorem empty_table_no_health_score :
    (run_audit (2026, 0) ⟨[("Report Number", [])]⟩).health_score = none ∧
    (run_audit (2026, 0) ⟨[]⟩).health_score = none := by
  constructor <;> rfl

/-- C2 amended: for an empty table (zero rows or zero columns) the audit
returns, without raising, the initial report: empty column_stats, summary and
scores, the fixed `'N/A'` latest_timestamp — and no health_score at all
(the `health_score` key is never set on this path). -/
theorem empty_table_report (now : ℤ × ℤ) (t : Table) (h : t.isEmptyT = true) :
    run_audit now t =
      { column_stats := [], consistency := none, accuracy := none, completeness := none,
        summary := [], latest_date := none, health_score := none } := by
  simp [run_audit, h]

theorem empty_table_report_witness :
    run_audit (2026, 0) ⟨[("Report Number", [])]⟩ =
      { column_stats := [], consistency := none, accuracy := none, completeness := none,
        summary := [], latest_date := none, health_score := none } :=
  empty_table_report (2026, 0) ⟨[("Report Number", [])]⟩ (by decide)

/-- C3: for every non-empty table, with K the number of rows duplicating an
earlier row's 'Report Number' key, the consistency score is exactly
`100*(1 - K/N)`; a finding stating the exact count K is in the summary
exactly when K > 0 (and it is the only duplicate-ID finding); and when the
primary-key column is absent the score is the vacuous 100. -/
theorem consistency_duplicate_rate (now : ℤ × ℤ) (t : Table) (h : t.isEmptyT = false) :
    (run_audit now t).consistency =
      some (100 * (1 - (dupCountT t : ℚ) / (t.nrows : ℚ))) ∧
    (t.col? "Report Number" = none → (run_audit now t).consistency = some 100) ∧
    (run_audit now t).summary.count (Finding.duplicateIds (dupCountT t)) =
      (if 0 < dupCountT t then 1 else 0) ∧
    (run_audit now t).summary.countP Finding.isDuplicateIds =
      (if 0 < dupCountT t then 1 else 0) := by
  refine ⟨?_, ?_, ?_, ?_⟩
  · simp only [run_audit, h, Bool.false_eq_true, if_false]
    unfold consistencyScore dupCountT
    rcases hc : t.col? "Report Number" with _ | ks <;> simp [hc]
    ring
  · intro hn
    simp [run_audit, h, consistencyScore, hn]
  · rw [summary_decomp h, List.count_append, List.count_append,
      count_keyFindings_eq_zero (by intro c p hfe; cases hfe),
      count_accuracyFindings_eq_zero (by intro k hfe; cases hfe)
        (by intro k b hfe; cases hfe) (by intro k hfe; cases hfe)]
    unfold dupFindings dupCountT
    rcases hc : t.col? "Report Number" with _ | ks <;> simp [hc]
    split <;> simp
  · rw [summary_decomp h, List.countP_append, List.countP_append,
      countP_keyFindings_eq_zero (by intro c q; rfl),
      countP_accuracyFindings_eq_zero (by intro k; rfl) (by intro k b; rfl) (by intro k; rfl)]
    unfold dupFindings dupCountT
    rcases hc : t.col? "Report Number" with _ | ks <;> simp [hc]
    split <;> simp [Finding.isDuplicateIds]

theorem consistency_duplicate_rate_witness :
    (run_audit (2026, 0) ⟨[("Report Number", [Cell.num 7, Cell.num 7])]⟩).consistency =
      some (100 * (1 - (dupCountT ⟨[("Report Number", [Cell.num 7, Cell.num 7])]⟩ : ℚ) /
        ((Table.mk [("Report Number", [Cell.num 7, Cell.num 7])]).nrows : ℚ))) ∧
    ((Table.mk [("Report Number", [Cell.num 7, Cell.num 7])]).col? "Report Number" = none →
      (run_audit (2026, 0) ⟨[("Report Number", [Cell.num 7, Cell.num 7])]⟩).consistency =
        some 100) ∧
    (run_audit (2026, 0) ⟨[("Report Number", [Cell.num 7, Cell.num 7])]⟩).summary.count
        (Finding.duplicateIds (dupCountT ⟨[("Report Number", [Cell.num 7, Cell.num 7])]⟩)) =
      (if 0 < dupCountT ⟨[("Report Number", [Cell.num 7, Cell.num 7])]⟩ then 1 else 0) ∧
    (run_audit (2026, 0) ⟨[("Report Number", [Cell.num 7, Cell.num 7])]⟩).summary.countP
        Finding.isDuplicateIds =
      (if 0 < dupCountT ⟨[("Report Number", [Cell.num 7, Cell.num 7])]⟩ then 1 else 0) :=
  consistency_duplicate_rate (2026, 0) ⟨[("Report Number", [Cell.num 7, Cell.num 7])]⟩
    (by decide)

/-- A one-row table with one negative speed value, used as the concrete
accuracy witness input. -/
def negSpeedTable : Table := ⟨[("Speed Limit", [Cell.num (-5), Cell.num 30, Cell.num 40])]⟩

/-- C4: for every non-empty table the accuracy score is
`max(0, 100*(1 - T/(N*3)))`, where T sums the future-date, invalid-year and
negative-speed counts; an absent configured field contributes a zero count
while the divisor stays `N*3`; and each of the three checks contributes
exactly one summary finding, stating its count, exactly when its count is
positive. -/
theorem accuracy_score_and_findings (now : ℤ × ℤ) (t : Table) (h : t.isEmptyT = false) :
    (run_audit now t).accuracy =
      some (max 0 (100 * (1 - (((futureCount now t + invalidYearCount now.1 t +
        negSpeedCount t : ℕ) : ℚ)) / ((t.nrows : ℚ) * 3)))) ∧
    (run_audit now t).summary.count (Finding.futureCrashes (futureCount now t)) =
      (if 0 < futureCount now t then 1 else 0) ∧
    (run_audit now t).summary.count
        (Finding.invalidYears (invalidYearCount now.1 t) (now.1 + 1)) =
      (if 0 < invalidYearCount now.1 t then 1 else 0) ∧
    (run_audit now t).summary.count (Finding.negSpeeds (negSpeedCount t)) =
      (if 0 < negSpeedCount t then 1 else 0) ∧
    (run_audit now t).summary.countP Finding.isFutureCrashes =
      (if 0 < futureCount now t then 1 else 0) ∧
    (run_audit now t).summary.countP Finding.isInvalidYears =
      (if 0 < invalidYearCount now.1 t then 1 else 0) ∧
    (run_audit now t).summary.countP Finding.isNegSpeeds =
      (if 0 < negSpeedCount t then 1 else 0) := by
  refine ⟨?_, ?_, ?_, ?_, ?_, ?_, ?_⟩
  · simp only [run_audit, h, Bool.false_eq_true, if_false]
    unfold accuracyScore accuracyIssues
    congr 2
    push_cast
    ring
  · rw [summary_decomp h, List.count_append, List.count_append,
      count_keyFindings_eq_zero (by intro c p hfe; cases hfe),
      count_dupFindings_eq_zero (by intro k hfe; cases hfe)]
    unfold accuracyFindings
    rw [List.count_append, List.count_append]
    by_cases h2 : 0 < invalidYearCount now.1 t <;> by_cases h3 : 0 < negSpeedCount t <;>
      by_cases h1 : 0 < futureCount now t <;>
      simp [h1, h2, h3, List.count_cons, beq_iff_eq]
  · rw [summary_decomp h, List.count_append, List.count_append,
      count_keyFindings_eq_zero (by intro c p hfe; cases hfe),
      count_dupFindings_eq_zero (by intro k hfe; cases hfe)]
    unfold accuracyFindings
    rw [List.count_append, List.count_append]
    by_cases h2 : 0 < invalidYearCount now.1 t <;> by_cases h3 : 0 < negSpeedCount t <;>
      by_cases h1 : 0 < futureCount now t <;>
      simp [h1, h2, h3, List.count_cons, beq_iff_eq]
  · rw [summary_decomp h, List.count_append, List.count_append,
      count_keyFindings_eq_zero (by intro c p hfe; cases hfe),
      count_dupFindings_eq_zero (by intro k hfe; cases hfe)]
    unfold accuracyFindings
    rw [List.count_append, List.count_append]
    by_cases h2 : 0 < invalidYearCount now.1 t <;> by_cases h3 : 0 < negSpeedCount t <;>
      by_cases h1 : 0 < futureCount now t <;>
      simp [h1, h2, h3, List.count_cons, beq_iff_eq]
  · rw [summary_decomp h, List.countP_append, List.countP_append,
      countP_keyFindings_eq_zero (by intro c q; rfl),
      countP_dupFindings_eq_zero (by intro k; rfl)]
    unfold accuracyFindings
    rw [List.countP_append, List.countP_append]
    by_cases h2 : 0 < invalidYearCount now.1 t <;> by_cases h3 : 0 < negSpeedCount t <;>
      by_cases h1 : 0 < futureCount now t <;>
      simp [h1, h2, h3, Finding.isFutureCrashes, Finding.isInvalidYears, Finding.isNegSpeeds]
  · rw [summary_decomp h, List.countP_append, List.countP_append,
      countP_keyFindings_eq_zero (by intro c q; rfl),
      countP_dupFindings_eq_zero (by intro k; rfl)]
    unfold accuracyFindings
    rw [List.countP_append, List.countP_append]
    by_cases h2 : 0 < invalidYearCount now.1 t <;> by_cases h3 : 0 < negSpeedCount t <;>
      by_cases h1 : 0 < futureCount now t <;>
      simp [h1, h2, h3, Finding.isFutureCrashes, Finding.isInvalidYears, Finding.isNegSpeeds]
  · rw [summary_decomp h, List.countP_append, List.countP_append,
      countP_keyFindings_eq_zero (by intro c q; rfl),
      countP_dupFindings_eq_zero (by intro k; rfl)]
    unfold accuracyFindings
    rw [List.countP_append, List.countP_append]
    by_cases h2 : 0 < invalidYearCount now.1 t <;> by_cases h3 : 0 < negSpeedCount t <;>
      by_cases h1 : 0 < futureCount now t <;>
      simp [h1, h2, h3, Finding.isFutureCrashes, Finding.isInvalidYears, Finding.isNegSpeeds]

theorem accuracy_score_and_findings_witness :
    (run_audit (2026, 0) negSpeedTable).accuracy =
      some (max 0 (100 * (1 - (((futureCount (2026, 0) negSpeedTable +
        invalidYearCount (2026, 0).1 negSpeedTable +
        negSpeedCount negSpeedTable : ℕ) : ℚ)) / ((negSpeedTable.nrows : ℚ) * 3)))) ∧
    (run_audit (2026, 0) negSpeedTable).summary.count
        (Finding.futureCrashes (futureCount (2026, 0) negSpeedTable)) =
      (if 0 < futureCount (2026, 0) negSpeedTable then 1 else 0) ∧
    (run_audit (2026, 0) negSpeedTable).summary.count
        (Finding.invalidYears (invalidYearCount (2026, 0).1 negSpeedTable) ((2026, 0).1 + 1)) =
      (if 0 < invalidYearCount (2026, 0).1 negSpeedTable then 1 else 0) ∧
    (run_audit (2026, 0) negSpeedTable).summary.count
        (Finding.negSpeeds (negSpeedCount negSpeedTable)) =
      (if 0 < negSpeedCount negSpeedTable then 1 else 0) ∧
    (run_audit (2026, 0) negSpeedTable).summary.countP Finding.isFutureCrashes =
      (if 0 < futureCount (2026, 0) negSpeedTable then 1 else 0) ∧
    (run_audit (2026, 0) negSpeedTable).summary.countP Finding.isInvalidYears =
      (if 0 < invalidYearCount (2026, 0).1 negSpeedTable then 1 else 0) ∧
    (run_audit (2026, 0) negSpeedTable).summary.countP Finding.isNegSpeeds =
      (if 0 < negSpeedCount negSpeedTable then 1 else 0) :=
  accuracy_score_and_findings (2026, 0) negSpeedTable (by decide)

lemma col?_length {t : Table} (hw : t.WF) {name : String} {vs : List Cell}
    (h : t.col? name = some vs) : vs.length = t.nrows := by
  unfold Table.col? at h
  cases hf : t.cols.find? (fun c => c.1 == name) with
  | none => rw [hf] at h; cases h
  | some c =>
      rw [hf] at h
      simp only [Option.map_some'] at h
      obtain rfl := Option.some.inj h
      exact hw c (List.mem_of_find?_eq_some hf)

lemma countP_col?_le {t : Table} (hw : t.WF) {name : String} {vs : List Cell}
    (h : t.col? name = some vs) (p : Cell → Bool) : vs.countP p ≤ t.nrows :=
  le_of_le_of_eq (List.countP_le_length p) (col?_length hw h)

/-- Each accuracy check counts rows, so the issue total of a well-formed table
never exceeds `3 * N` — the raw accuracy rate is never negative. -/
lemma accuracyIssues_le_three_nrows {now : ℤ × ℤ} {t : Table} (hw : t.WF) :
    accuracyIssues now t ≤ 3 * t.nrows := by
  have hf : futureCount now t ≤ t.nrows := by
    unfold futureCount
    cases hc : t.col? "Crash Date/Time" with
    | none => exact Nat.zero_le _
    | some vs => exact countP_col?_le hw hc _
  have hy : invalidYearCount now.1 t ≤ t.nrows := by
    unfold invalidYearCount
    cases hc : t.col? "Vehicle Year" with
    | none => exact Nat.zero_le _
    | some vs => exact countP_col?_le hw hc _
  have hs : negSpeedCount t ≤ t.nrows := by
    unfold negSpeedCount
    cases hc : t.col? "Speed Limit" with
    | none => exact Nat.zero_le _
    | some vs => exact countP_col?_le hw hc _
  unfold accuracyIssues
  omega

/-- C5: of two non-empty tables with the same row count, the one with strictly
more out-of-range values in the wired accuracy fields (future dates, invalid
vehicle years, negative speed limits) has the strictly smaller accuracy score. -/
theorem accuracy_strictly_decreasing (now : ℤ × ℤ) (t1 t2 : Table)
    (h1 : t1.isEmptyT = false) (h2 : t2.isEmptyT = false)
    (hn : t1.nrows = t2.nrows) (hw : t2.WF)
    (hlt : accuracyIssues now t1 < accuracyIssues now t2) :
    ((run_audit now t1).accuracy).isSome = true ∧
    ((run_audit now t2).accuracy).isSome = true ∧
    ((run_audit now t2).accuracy).getD 0 < ((run_audit now t1).accuracy).getD 0 := by
  have e1 : (run_audit now t1).accuracy = some (accuracyScore now t1) := by
    simp [run_audit, h1]
  have e2 : (run_audit now t2).accuracy = some (accuracyScore now t2) := by
    simp [run_audit, h2]
  refine ⟨by rw [e1]; rfl, by rw [e2]; rfl, ?_⟩
  rw [e1, e2]
  simp only [Option.getD_some]
  have hN : 0 < t1.nrows := (isEmptyT_false_iff.mp h1).1
  have hNpos : (0:ℚ) < (t1.nrows : ℚ) := by exact_mod_cast hN
  have hD : (0:ℚ) < (t1.nrows : ℚ) * 3 := by linarith
  have hT2 : (accuracyIssues now t2 : ℚ) ≤ (t1.nrows : ℚ) * 3 := by
    have hb := @accuracyIssues_le_three_nrows now t2 hw
    rw [← hn] at hb
    have : (accuracyIssues now t2 : ℚ) ≤ ((3 * t1.nrows : ℕ) : ℚ) := by exact_mod_cast hb
    push_cast at this
    linarith
  have hTlt : (accuracyIssues now t1 : ℚ) < (accuracyIssues now t2 : ℚ) := by
    exact_mod_cast hlt
  unfold accuracyScore
  rw [← hn]
  have hx2 : (accuracyIssues now t2 : ℚ) / ((t1.nrows : ℚ) * 3) ≤ 1 :=
    (div_le_one hD).mpr hT2
  have hdiv : (accuracyIssues now t1 : ℚ) / ((t1.nrows : ℚ) * 3) <
      (accuracyIssues now t2 : ℚ) / ((t1.nrows : ℚ) * 3) := by
    gcongr
  have hr2 : (0:ℚ) ≤ (1 - (accuracyIssues now t2 : ℚ) / ((t1.nrows : ℚ) * 3)) * 100 := by
    nlinarith
  have hrlt : (1 - (accuracyIssues now t2 : ℚ) / ((t1.nrows : ℚ) * 3)) * 100 <
      (1 - (accuracyIssues now t1 : ℚ) / ((t1.nrows : ℚ) * 3)) * 100 := by
    nlinarith
  rw [max_eq_right hr2, max_eq_right (le_of_lt (lt_of_le_of_lt hr2 hrlt))]
  exact hrlt

theorem accuracy_strictly_decreasing_witness :
    ((run_audit (2026, 0) ⟨[("Speed Limit", [Cell.num 30])]⟩).accuracy).isSome = true ∧
    ((run_audit (2026, 0) ⟨[("Speed Limit", [Cell.num (-5)])]⟩).accuracy).isSome = true ∧
    ((run_audit (2026, 0) ⟨[("Speed Limit", [Cell.num (-5)])]⟩).accuracy).getD 0 <
      ((run_audit (2026, 0) ⟨[("Speed Limit", [Cell.num 30])]⟩).accuracy).getD 0 :=
  accuracy_strictly_decreasing (2026, 0) ⟨[("Speed Limit", [Cell.num 30])]⟩
    ⟨[("Speed Limit", [Cell.num (-5)])]⟩ (by decide) (by decide) (by decide)
    (by decide) (by decide)

lemma keyFindings_length (n : ℕ) (cols : List (String × List Cell)) :
    (keyFindings n cols).length =
      cols.countP (fun c => decide (c.1 ∈ key_fields ∧ 1 < missingPct n c.2)) := by
  induction cols with
  | nil => rfl
  | cons c cs ih =>
      unfold keyFindings at ih ⊢
      rw [List.filterMap_cons, List.countP_cons]
      by_cases hc : c.1 ∈ key_fields ∧ 1 < missingPct n c.2 <;> simp [hc, ih]

/-- A two-row table whose key field 'Report Number' is 50% missing (Critical,
with a finding) and whose 'Weather' column is 100% missing (Warning). -/
def sampleCompletenessTable : Table :=
  ⟨[("Report Number", [Cell.null, Cell.num 1]), ("Weather", [Cell.null, Cell.null])]⟩

/-- C6: for every non-empty table the completeness score is the mean over all
columns of `100 - missing_pct`; a column's status is Critical exactly when it
is a configured key field with missing percentage above 1 (each such column
putting a finding carrying its name and exact missing percentage into the
summary — the rendering to two decimal places is presentational), Warning
exactly when it is not Critical and the percentage exceeds 10, and Valid
otherwise; and the key-field findings are exactly one per Critical column. -/
theorem completeness_status_classification (now : ℤ × ℤ) (t : Table)
    (h : t.isEmptyT = false) :
    (run_audit now t).completeness =
      some ((t.cols.map (fun c => 100 - missingPct t.nrows c.2)).sum / (t.cols.length : ℚ)) ∧
    ((run_audit now t).column_stats).all (fun s =>
      ((s.status == Status.Critical) == decide (s.name ∈ key_fields ∧ 1 < s.missing_pct)) &&
      ((s.status == Status.Warning) ==
        (!decide (s.name ∈ key_fields ∧ 1 < s.missing_pct) && decide (10 < s.missing_pct))) &&
      ((s.status == Status.Valid) ==
        (!decide (s.name ∈ key_fields ∧ 1 < s.missing_pct) &&
          !decide (10 < s.missing_pct)))) = true ∧
    (t.cols.all (fun c =>
      !decide (c.1 ∈ key_fields ∧ 1 < missingPct t.nrows c.2) ||
      decide (Finding.keyFieldMissing c.1 (missingPct t.nrows c.2) ∈
        (run_audit now t).summary))) = true ∧
    (run_audit now t).summary.countP Finding.isKeyFieldMissing =
      t.cols.countP (fun c => decide (c.1 ∈ key_fields ∧ 1 < missingPct t.nrows c.2)) := by
  refine ⟨?_, ?_, ?_, ?_⟩
  · simp [run_audit, h, completenessScore]
  · have hcs : (run_audit now t).column_stats = colStats t.nrows t.cols := by
      simp [run_audit, h]
    rw [hcs]
    unfold colStats
    rw [List.all_eq_true]
    intro s hs
    obtain ⟨c, hc, rfl⟩ := List.mem_map.mp hs
    unfold auditStatus
    split_ifs with hcrit hwarn
    · rw [decide_eq_true hcrit]
      simp
    · rw [decide_eq_false hcrit, decide_eq_true hwarn]
      simp
    · rw [decide_eq_false hcrit, decide_eq_false hwarn]
      simp
  · rw [List.all_eq_true]
    intro c hc
    by_cases hcond : c.1 ∈ key_fields ∧ 1 < missingPct t.nrows c.2
    · have hmem : Finding.keyFieldMissing c.1 (missingPct t.nrows c.2) ∈
          (run_audit now t).summary := by
        rw [summary_decomp h]
        refine List.mem_append_left _ (List.mem_append_left _ ?_)
        exact List.mem_filterMap.mpr ⟨c, hc, by simp [hcond]⟩
      simp [hcond, hmem]
    · simp [hcond]
  · rw [summary_decomp h, List.countP_append, List.countP_append,
      countP_dupFindings_eq_zero (by intro k; rfl),
      countP_accuracyFindings_eq_zero (by intro k; rfl) (by intro k b; rfl) (by intro k; rfl)]
    have hall : (keyFindings t.nrows t.cols).countP Finding.isKeyFieldMissing =
        (keyFindings t.nrows t.cols).length := by
      rw [List.countP_eq_length]
      intro f hf
      obtain ⟨c, p, rfl⟩ := mem_keyFindings hf
      rfl
    rw [hall, keyFindings_length]
    omega

theorem completeness_status_classification_witness :
    (run_audit (2026, 0) sampleCompletenessTable).completeness =
      some ((sampleCompletenessTable.cols.map
        (fun c => 100 - missingPct sampleCompletenessTable.nrows c.2)).sum /
          (sampleCompletenessTable.cols.length : ℚ)) ∧
    ((run_audit (2026, 0) sampleCompletenessTable).column_stats).all (fun s =>
      ((s.status == Status.Critical) == decide (s.name ∈ key_fields ∧ 1 < s.missing_pct)) &&
      ((s.status == Status.Warning) ==
        (!decide (s.name ∈ key_fields ∧ 1 < s.missing_pct) && decide (10 < s.missing_pct))) &&
      ((s.status == Status.Valid) ==
        (!decide (s.name ∈ key_fields ∧ 1 < s.missing_pct) &&
          !decide (10 < s.missing_pct)))) = true ∧
    (sampleCompletenessTable.cols.all (fun c =>
      !decide (c.1 ∈ key_fields ∧ 1 < missingPct sampleCompletenessTable.nrows c.2) ||
      decide (Finding.keyFieldMissing c.1 (missingPct sampleCompletenessTable.nrows c.2) ∈
        (run_audit (2026, 0) sampleCompletenessTable).summary))) = true ∧
    (run_audit (2026, 0) sampleCompletenessTable).summary.countP Finding.isKeyFieldMissing =
      sampleCompletenessTable.cols.countP
        (fun c => decide (c.1 ∈ key_fields ∧
          1 < missingPct sampleCompletenessTable.nrows c.2)) :=
  completeness_status_classification (2026, 0) sampleCompletenessTable (by decide)

lemma isEmptyT_true_of_nrows_zero {t : Table} (h : t.nrows = 0) : t.isEmptyT = true := by
  simp [Table.isEmptyT, h]

/-- A one-row table whose vehicle year is more than one year ahead of the
crash year. -/
def crossYearTable : Table :=
  ⟨[("Crash Date/Time", [Cell.time 2020 0]), ("Vehicle Year", [Cell.num 2025])]⟩

/-- C7: when both the primary timestamp column and the year-like field exist,
the legacy consistency check reports one issue counting exactly the rows whose
'Vehicle Year' exceeds the crash year + 1 (exactly when such rows exist); and
this rule never feeds the consistency dimension score: the score of `run_audit`
is unchanged by any change outside the 'Report Number' column and row count. -/
theorem crossfield_year_rule (now : ℤ × ℤ) (t t2 : Table) (ts vy : List Cell)
    (hts : t.col? "Crash Date/Time" = some ts) (hvy : t.col? "Vehicle Year" = some vy)
    (hrn : t2.col? "Report Number" = t.col? "Report Number") (hn : t2.nrows = t.nrows) :
    ((check_consistency t).issues.count (QAIssue.yearAheadOfCrash (yearAheadCount t)) =
      if 0 < yearAheadCount t then 1 else 0) ∧
    (run_audit now t2).consistency = (run_audit now t).consistency := by
  constructor
  · unfold check_consistency
    rw [hts, hvy]
    by_cases h0 : 0 < yearAheadCount t <;> simp [h0]
  · by_cases hz : t.nrows = 0
    · have he1 : t.isEmptyT = true := isEmptyT_true_of_nrows_zero hz
      have he2 : t2.isEmptyT = true := isEmptyT_true_of_nrows_zero (by rw [hn, hz])
      simp [run_audit, he1, he2]
    · have he1 : t.isEmptyT = false :=
        isEmptyT_false_iff.mpr ⟨Nat.pos_of_ne_zero hz, cols_ne_nil_of_col? hts⟩
      have hz2 : t2.nrows ≠ 0 := by rw [hn]; exact hz
      have he2 : t2.isEmptyT = false :=
        isEmptyT_false_iff.mpr ⟨Nat.pos_of_ne_zero hz2,
          fun hnil => hz2 (nrows_zero_of_cols_nil hnil)⟩
      simp only [run_audit, he1, he2, Bool.false_eq_true, if_false]
      unfold consistencyScore
      rw [hrn, hn]

theorem crossfield_year_rule_witness :
    ((check_consistency crossYearTable).issues.count
        (QAIssue.yearAheadOfCrash (yearAheadCount crossYearTable)) =
      if 0 < yearAheadCount crossYearTable then 1 else 0) ∧
    (run_audit (2026, 0) crossYearTable).consistency =
      (run_audit (2026, 0) crossYearTable).consistency :=
  crossfield_year_rule (2026, 0) crossYearTable crossYearTable
    [Cell.time 2020 0] [Cell.num 2025] (by decide) (by decide) rfl rfl

lemma col?_setCol {cols : List (String × List Cell)} {name : String} {vs x : List Cell}
    (h : (Table.mk cols).col? name = some vs) :
    ((Table.mk cols).setCol name x).col? name = some x := by
  unfold Table.col? Table.setCol at *
  induction cols with
  | nil => simp at h
  | cons c cs ih =>
      by_cases hc : c.1 = name
      · simp [List.find?_cons, hc]
      · have hb : (c.1 == name) = false := beq_eq_false_iff_ne.mpr hc
        simp only [List.map_cons, if_neg hc, List.find?_cons, hb] at h ⊢
        exact ih h

lemma missingCount_fillNulls (vs : List Cell) (v : Cell) (hv : v.isNull = false) :
    missingCount (fillNulls vs v) = 0 := by
  unfold missingCount fillNulls
  rw [List.countP_eq_zero]
  intro a ha
  obtain ⟨c, _, rfl⟩ := List.mem_map.mp ha
  by_cases h0 : c = .null
  · simp [h0, hv]
  · rw [if_neg h0]
    cases c <;> simp [Cell.isNull] at h0 ⊢

/-- C8 counterexample: a numeric column whose every value is missing.  The
Mean imputation computes a NaN mean, `fillna(NaN)` fills nothing, and the
returned table still has its missing value — the claim's "leaves zero missing
values afterward" is false for this input (which also has no defined
arithmetic mean to report). -/
theorem impute_mean_all_missing_counterexample :
    (impute_column ⟨[("Speed Limit", [Cell.null])]⟩ "Speed Limit" "Mean").isSome = true ∧
    missingCount (((((impute_column ⟨[("Speed Limit", [Cell.null])]⟩ "Speed Limit"
      "Mean").getD (⟨[]⟩, CleanMsg.empty)).1).col? "Speed Limit").getD []) ≠ 0 := by
  constructor
  · rfl
  · decide

/-- C8 amended: for every table and every numeric column (each cell numeric or
missing) holding at least one non-missing value, Mean imputation succeeds,
leaves zero missing values in the column, and the mean carried by the returned
message is exactly the unweighted arithmetic mean of the originally
non-missing values. -/
theorem impute_mean_fills_and_reports (t : Table) (col : String) (vs : List Cell)
    (hc : t.col? col = some vs) (hnum : numericCol vs = true) (hx : colNums vs ≠ []) :
    (impute_column t col "Mean").isSome = true ∧
    missingCount ((((impute_column t col "Mean").getD
      (t, CleanMsg.empty)).1.col? col).getD []) = 0 ∧
    ((impute_column t col "Mean").getD (t, CleanMsg.empty)).2 =
      CleanMsg.imputedMean col (some ((colNums vs).sum / ((colNums vs).length : ℚ))) := by
  have hmean : colMean vs = some ((colNums vs).sum / ((colNums vs).length : ℚ)) := by
    unfold colMean
    rw [if_neg (by simpa [List.isEmpty_iff] using hx)]
  have himp : impute_column t col "Mean" =
      some (t.setCol col
          (fillNulls vs (.num ((colNums vs).sum / ((colNums vs).length : ℚ)))),
        CleanMsg.imputedMean col (some ((colNums vs).sum / ((colNums vs).length : ℚ)))) := by
    unfold impute_column
    rw [hc]
    simp [hnum, hmean]
  obtain ⟨cols⟩ := t
  refine ⟨by rw [himp]; rfl, ?_, by rw [himp]; rfl⟩
  rw [himp]
  simp only [Option.getD_some]
  rw [col?_setCol hc]
  simp only [Option.getD_some]
  exact missingCount_fillNulls vs _ rfl

theorem impute_mean_fills_and_reports_witness :
    (impute_column ⟨[("A", [Cell.num 2, Cell.null, Cell.num 4])]⟩ "A" "Mean").isSome = true ∧
    missingCount ((((impute_column ⟨[("A", [Cell.num 2, Cell.null, Cell.num 4])]⟩ "A"
      "Mean").getD (⟨[("A", [Cell.num 2, Cell.null, Cell.num 4])]⟩,
        CleanMsg.empty)).1.col? "A").getD []) = 0 ∧
    ((impute_column ⟨[("A", [Cell.num 2, Cell.null, Cell.num 4])]⟩ "A" "Mean").getD
      (⟨[("A", [Cell.num 2, Cell.null, Cell.num 4])]⟩, CleanMsg.empty)).2 =
      CleanMsg.imputedMean "A"
        (some ((colNums [Cell.num 2, Cell.null, Cell.num 4]).sum /
          ((colNums [Cell.num 2, Cell.null, Cell.num 4]).length : ℚ))) :=
  impute_mean_fills_and_reports ⟨[("A", [Cell.num 2, Cell.null, Cell.num 4])]⟩ "A"
    [Cell.num 2, Cell.null, Cell.num 4] (by decide) (by decide) (by decide)

lemma Store.get_alloc_of_lt {s : Store} {t : Table} {r : ℕ} (h : r < s.tables.length) :
    (s.alloc t).1.get r = s.get r := by
  unfold Store.alloc Store.get
  exact List.getD_append _ _ _ _ h

lemma Store.get_set_ne {s : Store} {t : Table} {r u : ℕ} (h : u ≠ r) :
    (s.set u t).get r = s.get r := by
  unfold Store.set Store.get
  rw [List.getD_eq_getElem?_getD, List.getElem?_set_ne h, ← List.getD_eq_getElem?_getD]

/-- One engine call writes only to the engine's own reference (or a fresh
allocation), so any other live reference is untouched, stays live, and stays
distinct from the engine's reference. -/
lemma step_preserves {s : Store} {e : CleaningEngine} {r : ℕ} (op : COp)
    (hr : r < s.tables.length) (hne : e.dfRef ≠ r) :
    (CleaningEngine.step s e op).1.get r = s.get r ∧
    r < (CleaningEngine.step s e op).1.tables.length ∧
    (CleaningEngine.step s e op).2.dfRef ≠ r := by
  cases op with
  | dropNulls columns =>
      exact ⟨Store.get_set_ne hne, by simpa [CleaningEngine.step, Store.set] using hr, hne⟩
  | fillNulls column v =>
      exact ⟨Store.get_set_ne hne, by simpa [CleaningEngine.step, Store.set] using hr, hne⟩
  | filterByYear column y =>
      refine ⟨Store.get_alloc_of_lt hr, ?_, ?_⟩
      · simp only [CleaningEngine.step, Store.alloc, List.length_append, List.length_cons,
          List.length_nil]
        omega
      · simp only [CleaningEngine.step, Store.alloc]
        omega

lemma runOps_get_eq (ops : List COp) :
    ∀ (s : Store) (e : CleaningEngine) (r : ℕ), r < s.tables.length → e.dfRef ≠ r →
      (CleaningEngine.runOps s e ops).1.get r = s.get r := by
  induction ops with
  | nil => intro s e r _ _; rfl
  | cons op ops ih =>
      intro s e r hr hne
      obtain ⟨h1, h2, h3⟩ := step_preserves op hr hne
      calc (CleaningEngine.runOps s e (op :: ops)).1.get r
          = (CleaningEngine.runOps (CleaningEngine.step s e op).1
              (CleaningEngine.step s e op).2 ops).1.get r := rfl
        _ = (CleaningEngine.step s e op).1.get r := ih _ _ r h2 h3
        _ = s.get r := h1

/-- C9: constructing a `CleaningEngine` on a dataframe and running any
sequence of its operations (drop_nulls, fill_nulls, filter_by_year) leaves
the caller's dataframe object untouched: the engine works on the copy taken
at construction. -/
theorem cleaning_engine_preserves_caller (s : Store) (r : ℕ) (ops : List COp)
    (hr : r < s.tables.length) :
    (CleaningEngine.runOps (CleaningEngine.init s r).1
      (CleaningEngine.init s r).2 ops).1.get r = s.get r := by
  have h1 : (CleaningEngine.init s r).1.get r = s.get r := Store.get_alloc_of_lt hr
  have h2 : r < (CleaningEngine.init s r).1.tables.length := by
    simp only [CleaningEngine.init, Store.alloc, List.length_append, List.length_cons,
      List.length_nil]
    omega
  have h3 : (CleaningEngine.init s r).2.dfRef ≠ r := by
    simp only [CleaningEngine.init, Store.alloc]
    omega
  rw [runOps_get_eq ops _ _ r h2 h3, h1]

/-- The store holding one caller dataframe, for the C9 witness. -/
def callerStore : Store :=
  ⟨[⟨[("Vehicle Year", [Cell.num 1999, Cell.null, Cell.num 2024])]⟩]⟩

theorem cleaning_engine_preserves_caller_witness :
    (CleaningEngine.runOps (CleaningEngine.init callerStore 0).1
      (CleaningEngine.init callerStore 0).2
      [COp.dropNulls ["Vehicle Year"], COp.fillNulls "Vehicle Year" (Cell.num 0),
       COp.filterByYear "Vehicle Year" 2000]).1.get 0 = callerStore.get 0 :=
  cleaning_engine_preserves_caller callerStore 0
    [COp.dropNulls ["Vehicle Year"], COp.fillNulls "Vehicle Year" (Cell.num 0),
     COp.filterByYear "Vehicle Year" 2000] (by decide)

/-- C10: for every table and every column of it, `impute_column` called with
a strategy outside Mean/Median/Mode/Drop raises nothing, falls through every
branch, and returns the table unchanged with the empty message. -/
theorem impute_unknown_strategy_noop (t : Table) (col : String) (vs : List Cell)
    (strategy : String) (hc : t.col? col = some vs)
    (h1 : strategy ≠ "Mean") (h2 : strategy ≠ "Median") (h3 : strategy ≠ "Mode")
    (h4 : strategy ≠ "Drop") :
    impute_column t col strategy = some (t, CleanMsg.empty) := by
  unfold impute_column
  rw [hc]
  simp [h1, h2, h3, h4]

theorem impute_unknown_strategy_noop_witness :
    impute_column ⟨[("A", [Cell.num 2, Cell.null])]⟩ "A" "Max" =
      some (⟨[("A", [Cell.num 2, Cell.null])]⟩, CleanMsg.empty) :=
  impute_unknown_strategy_noop ⟨[("A", [Cell.num 2, Cell.null])]⟩ "A"
    [Cell.num 2, Cell.null] "Max" (by decide) (by decide) (by decide) (by decide)
    (by decide)

end AntiGravity
